import Mathlib

/-!
Verification of the Velodyne raw-data unpacking component
(src/velodyne_calibration/include/velodyne_pointcloud/rawdata.h).

The repository ships only the header: thus the layout constants, the
Config structure and the inline RawData::pointInRange are embedded
directly from rawdata.h, while the bodies of RawData::setup and
RawData::unpack are not in the sources and are modelled from the
specification (each such definition carries a doc comment starting
with `Modelled from the spec:`).

Machine integers are modelled as Nat (all fields involved are
unsigned), metric quantities as exact rationals, and a packet as the
list of its bytes.
-/

set_option maxRecDepth 100000
set_option maxHeartbeats 4000000

namespace velodyne_rawdata

/-! Raw Velodyne packet constants, from rawdata.h lines 51-66 and 93-98. -/

def SIZE_BLOCK : Nat := 100
def RAW_SCAN_SIZE : Nat := 3
def SCANS_PER_BLOCK : Nat := 32
def BLOCK_DATA_SIZE : Nat := SCANS_PER_BLOCK * RAW_SCAN_SIZE

def ROTATION_RESOLUTION : ℚ := 1 / 100
def ROTATION_MAX_UNITS : Nat := 36000

def DISTANCE_MAX : ℚ := 130
def DISTANCE_RESOLUTION : ℚ := 2 / 1000
def DISTANCE_MAX_UNITS : ℚ := DISTANCE_MAX / DISTANCE_RESOLUTION + 1

def UPPER_BANK : Nat := 0xeeff
def LOWER_BANK : Nat := 0xddff

def PACKET_SIZE : Nat := 1206
def BLOCKS_PER_PACKET : Nat := 12
def PACKET_STATUS_SIZE : Nat := 4
def SCANS_PER_PACKET : Nat := SCANS_PER_BLOCK * BLOCKS_PER_PACKET
def PACKETS_PER_REV : Nat := 260
def SCANS_PER_REV : Nat := SCANS_PER_PACKET * PACKETS_PER_REV

/-- Range configuration, from the Config struct of rawdata.h lines
147-151 (field order as in the source: max_range then min_range; the
C++ doubles are modelled as exact rationals). -/
structure Config where
  max_range : ℚ
  min_range : ℚ
deriving DecidableEq

/-- In-line range test of rawdata.h lines 159-163, embedded verbatim:
`range >= config_.min_range && range <= config_.max_range`. -/
def pointInRange (config : Config) (range : ℚ) : Bool :=
  decide (range ≥ config.min_range) && decide (range ≤ config.max_range)

/-- A raw packet is its byte sequence (each entry a byte value). The
union two_bytes of rawdata.h reads two consecutive bytes
little-endian; le16 is that read. -/
def le16 (lo hi : Nat) : Nat := lo + 256 * hi

/-- One decoded scan tuple, as produced by the packet decoder
(spec §4.1): the beam identifier, the rotation shared by the block,
the raw little-endian distance and the raw intensity byte. -/
structure RawScanRecord where
  beamId : Nat
  rotation : Nat
  dist : Nat
  intensity : Nat
deriving DecidableEq

/-- Modelled from the spec: physical distance of a raw reading,
distance_m = raw_distance x DISTANCE_RESOLUTION (spec §4.2 step 1);
the resolution constant itself is from rawdata.h line 62. -/
def distance_m (d : Nat) : ℚ := (d : ℚ) * DISTANCE_RESOLUTION

/-- Modelled from the spec: azimuth in hundredths of a degree
converted to degrees, azimuth_deg = raw x ROTATION_RESOLUTION
(rawdata.h line 78: divide by 100 to get degrees). The further
degree-to-radian conversion of spec §4.2 step 2 is stated at the
theorem level over the reals. -/
def azimuth_deg (a : Nat) : ℚ := (a : ℚ) * ROTATION_RESOLUTION

/-- Modelled from the spec: the result of the external calibration
correction (spec §4.2 step 3): Cartesian coordinates in the sensor
frame together with the corrected range that the range filter tests
(spec §4.3 filters on the corrected physical range). -/
structure CalibOut where
  x : ℚ
  y : ℚ
  z : ℚ
  range : ℚ
deriving DecidableEq

/-- Modelled from the spec: the external Calibration collaborator as
an opaque pure function (spec §1, §4.2 step 3): from the beam
identifier, the metric distance and the raw azimuth (from which the
radian azimuth is derived) to corrected geometry. -/
def Calibration : Type := Nat → ℚ → Nat → CalibOut

/-- A trivial concrete calibration used for concrete evaluations: the
corrected range equals the uncorrected metric distance and the point
is placed on the x axis. -/
def idCalib : Calibration := fun _ dm _ => ⟨dm, 0, 0, dm⟩

/-- Output point (spec §3 OutputPoint): Cartesian coordinates,
intensity and ring/BeamId; the corrected range that the filter tested
is carried alongside (in the C++ point type only x, y, z are stored,
but the corrected range is the quantity spec §4.3 filters on, so the
model keeps it observable). -/
structure OutputPoint where
  x : ℚ
  y : ℚ
  z : ℚ
  intensity : Nat
  ring : Nat
  range : ℚ
deriving DecidableEq

/-- Modelled from the spec: the 32 scans of one block (spec §4.1):
for beam j the 2-byte little-endian distance sits at data offset 3j
and the intensity byte at 3j + 2; block bytes 0-1 are the header and
2-3 the rotation, so within the 100-byte block the scan bytes start
at offset 4. Beam identifiers are origin + j where origin is 0 for
the upper bank and 32 for the lower bank (spec §8: UPPER maps to
BeamId range [0,32), LOWER to [32,64)). -/
def blockScans (blk : List Nat) (origin rot : Nat) : List RawScanRecord :=
  (List.range SCANS_PER_BLOCK).map fun j =>
    ⟨origin + j, rot,
     le16 (blk.getD (4 + 3 * j) 0) (blk.getD (5 + 3 * j) 0),
     blk.getD (6 + 3 * j) 0⟩

/-- Modelled from the spec: decoding one 100-byte block (spec §4.1):
the 2-byte little-endian header selects the bank (UPPER_BANK or
LOWER_BANK sentinel, constants from rawdata.h lines 65-66); any other
header value is a per-block decode error and the whole block is
skipped, contributing no scans (spec §7 UnknownBank). -/
def decodeBlock (blk : List Nat) : List RawScanRecord :=
  let header := le16 (blk.getD 0 0) (blk.getD 1 0)
  let rot := le16 (blk.getD 2 0) (blk.getD 3 0)
  if header = UPPER_BANK then blockScans blk 0 rot
  else if header = LOWER_BANK then blockScans blk 32 rot
  else []

/-- Modelled from the spec: the packet decoder (spec §4.1): the 12
consecutive 100-byte blocks of a (length-checked) packet are decoded
in stored order; the trailing revolution and status bytes carry no
scans. -/
def decodePacket (pkt : List Nat) : List RawScanRecord :=
  (List.range BLOCKS_PER_PACKET).flatMap fun i =>
    decodeBlock ((pkt.drop (SIZE_BLOCK * i)).take SIZE_BLOCK)

/-- Modelled from the spec: the point reconstructor and range filter
applied to one decoded scan (spec §4.2, §4.3): a raw distance of 0
means no return and the scan is discarded before filtering; otherwise
the calibration correction is applied to the metric distance and the
corrected range is tested by pointInRange; an accepted scan yields
the output point with the raw intensity and the beam as ring. -/
def processScan (calib : Calibration) (config : Config) (s : RawScanRecord) :
    Option OutputPoint :=
  if s.dist = 0 then none
  else
    let g := calib s.beamId (distance_m s.dist) s.rotation
    if pointInRange config g.range then
      some ⟨g.x, g.y, g.z, s.intensity, s.beamId, g.range⟩
    else none

/-- Decode errors of the spec taxonomy (spec §7): BadLength rejects a
whole packet, UnknownBank is scoped to one block. -/
inductive DecodeError where
  | BadLength : DecodeError
  | UnknownBank : DecodeError
deriving DecidableEq

/-- Emitted/discarded counts of one packet (spec §4.4 Stats). -/
structure Stats where
  emitted : Nat
  discarded : Nat
deriving DecidableEq

/-- Modelled from the spec: the per-packet decode pipeline stated by
spec §4.4 as `unpack(packet, out_points) -> Result<Stats, DecodeError>`:
a packet whose length is not PACKET_SIZE is rejected whole with
BadLength and yields no points; otherwise every decoded scan runs
through reconstruction and the range filter, and the emitted points
are returned with the emitted/discarded counts. -/
def unpackCore (calib : Calibration) (config : Config) (pkt : List Nat) :
    Except DecodeError (Stats × List OutputPoint) :=
  if pkt.length = PACKET_SIZE then
    let scans := decodePacket pkt
    let pts := scans.filterMap (processScan calib config)
    Except.ok (⟨pts.length, scans.length - pts.length⟩, pts)
  else Except.error DecodeError.BadLength

/-- State of one RawData object. The class of rawdata.h lines 120-164
stores the Config and the Calibration; the Uninitialized/Ready
distinction of spec §4.4 (before/after a successful setup) is
modelled from the spec by the ready flag, the header declaring no
explicit state field. -/
structure RawDataState where
  ready : Bool
  config : Config
  calib : Calibration

/-- Modelled from the spec, with the signature of rawdata.h line 140:
`void unpack(const velodyne_msgs::VelodynePacket&, VPointCloud::Ptr&)`
returns nothing and appends the accepted points to the caller-owned
cloud, so the facade maps the prior cloud contents to the new
contents. Before a successful setup no work is performed and nothing
is appended (spec §4.4 state machine, §7 NotReady); on a packet-level
decode failure nothing is appended (spec §7 BadLength). The void
return means no error value of any kind leaves the facade. -/
def unpack (st : RawDataState) (pkt : List Nat) (pc : List OutputPoint) :
    List OutputPoint :=
  if st.ready then
    match unpackCore st.calib st.config pkt with
    | Except.ok (_, pts) => pc ++ pts
    | Except.error _ => pc
  else pc

/-!
Concrete inputs used by the concrete theorems below. Distance 5000
is the byte pair [136, 19] (0x1388 little-endian) and the UPPER_BANK
header 0xeeff is the byte pair [255, 238]; LOWER_BANK 0xddff is
[255, 221]. Blocks are numbered from 0.
-/

/-- An upper-bank block: rotation 0, all 32 raw distances 5000, all
intensities 100. -/
def blkU : List Nat := [255, 238, 0, 0] ++ (List.replicate 32 [136, 19, 100]).flatten

/-- A lower-bank block with the same scan data as blkU. -/
def blkL : List Nat := [255, 221, 0, 0] ++ (List.replicate 32 [136, 19, 100]).flatten

/-- A block with a malformed bank header (0x0000) and the same scan
data as blkU. -/
def blkBad : List Nat := [0, 0, 0, 0] ++ (List.replicate 32 [136, 19, 100]).flatten

/-- An upper-bank block whose 32 raw distances are all 0 (no
return). -/
def blkZD : List Nat := [255, 238, 0, 0] ++ List.replicate 96 0

/-- The 1206-byte packet of the end-to-end scenario: 12 upper-bank
blocks, all raw distances 5000, all intensities 100, revolution and
status bytes zero. -/
def pktC1 : List Nat := (List.replicate 12 blkU).flatten ++ List.replicate 6 0

/-- The same packet with the bank header of the block at index 3
malformed. -/
def pktC1bad : List Nat :=
  ((List.range 12).map fun i => if i = 3 then blkBad else blkU).flatten ++
    List.replicate 6 0

/-- A well-formed packet of 12 upper-bank blocks whose raw distances
are all 0. -/
def pktZD : List Nat := (List.replicate 12 blkZD).flatten ++ List.replicate 6 0

/-- A 1206-byte packet of zero bytes: every block header is 0, an
unrecognized bank, so every block is skipped. -/
def pktZeroHdr : List Nat := List.replicate 1206 0

/-- A packet of the wrong length (1205 bytes). -/
def pkt1205 : List Nat := List.replicate 1205 0

/-- The range configuration of the end-to-end scenario:
min_range 1.0, max_range 50.0. -/
def cfg1 : Config := ⟨50, 1⟩

/-- An inverted window: max_range 1.0 below min_range 50.0. -/
def cfgBad : Config := ⟨1, 50⟩

/-- A Ready RawData state holding cfg1 and the trivial calibration. -/
def stI : RawDataState := ⟨true, cfg1, idCalib⟩

/-- An Uninitialized RawData state (before a successful setup). -/
def stU : RawDataState := ⟨false, cfg1, idCalib⟩

/-! Helper lemmas shared by the claim proofs. -/

/-- Every point the reconstructor emits passed the range filter on
its corrected range. -/
theorem processScan_inRange (calib : Calibration) (config : Config)
    (s : RawScanRecord) (p : OutputPoint)
    (h : processScan calib config s = some p) :
    pointInRange config p.range = true := by
  unfold processScan at h
  split at h
  · exact absurd h (by simp)
  · dsimp only at h
    split at h
    · cases h
      assumption
    · exact absurd h (by simp)

/-- Inversion of a successful unpackCore run: the points are exactly
the decoded scans surviving reconstruction and filtering, and the
emitted count is their number. -/
theorem unpackCore_ok (calib : Calibration) (config : Config) (pkt : List Nat)
    (stats : Stats) (pts : List OutputPoint)
    (h : unpackCore calib config pkt = Except.ok (stats, pts)) :
    pts = (decodePacket pkt).filterMap (processScan calib config) ∧
      stats.emitted = pts.length := by
  unfold unpackCore at h
  split at h
  · cases h
    exact ⟨rfl, rfl⟩
  · cases h

/-- Claim C3: the range filter keeps a corrected range r iff
min_range ≤ r ≤ max_range, both endpoints inclusive: r equal to an
endpoint is kept whenever the window is nonempty, and r strictly
below min_range or strictly above max_range is discarded. -/
theorem C3_range_filter_inclusive (config : Config) (r : ℚ) :
    (pointInRange config r = true ↔
      config.min_range ≤ r ∧ r ≤ config.max_range) ∧
    (config.min_range ≤ config.max_range →
      pointInRange config config.min_range = true ∧
      pointInRange config config.max_range = true) ∧
    (r < config.min_range → pointInRange config r = false) ∧
    (config.max_range < r → pointInRange config r = false) := by
  refine ⟨?_, fun h => ⟨?_, ?_⟩, fun h => ?_, fun h => ?_⟩
  · simp [pointInRange, ge_iff_le]
  · simp [pointInRange, h]
  · simp [pointInRange, h]
  · simp [pointInRange, not_le.mpr h]
  · simp [pointInRange, not_le.mpr h]

/-- Witness for C3 at the scenario configuration: 1 and 50 are kept,
1/2 and 51 are discarded. -/
theorem C3_range_filter_inclusive_witness :
    (pointInRange cfg1 cfg1.min_range = true ∧
      pointInRange cfg1 cfg1.max_range = true) ∧
    pointInRange cfg1 (1 / 2) = false ∧
    pointInRange cfg1 51 = false :=
  ⟨(C3_range_filter_inclusive cfg1 0).2.1 (by with_unfolding_all decide),
   (C3_range_filter_inclusive cfg1 (1 / 2)).2.2.1 (by with_unfolding_all decide),
   (C3_range_filter_inclusive cfg1 51).2.2.2 (by with_unfolding_all decide)⟩

/-- Claim C10: with an inverted window (min_range above max_range,
which the configuration interface precondition excludes) the filter
rejects every range value. -/
theorem C10_empty_window (config : Config) (r : ℚ)
    (h : config.max_range < config.min_range) :
    pointInRange config r = false := by
  rcases le_or_lt config.min_range r with h1 | h1
  · simp [pointInRange, not_le.mpr (lt_of_lt_of_le h h1)]
  · simp [pointInRange, not_le.mpr h1]

/-- Witness for C10 at the inverted window {max 1, min 50}: values
below, inside and above the two bounds are all rejected. -/
theorem C10_empty_window_witness :
    pointInRange cfgBad 10 = false ∧
    pointInRange cfgBad 1 = false ∧
    pointInRange cfgBad 50 = false :=
  ⟨C10_empty_window cfgBad 10 (by with_unfolding_all decide),
   C10_empty_window cfgBad 1 (by with_unfolding_all decide),
   C10_empty_window cfgBad 50 (by with_unfolding_all decide)⟩

/-- Claim C5: a packet whose length is not 1206 bytes is rejected
whole with BadLength and the output collection is left unchanged. -/
theorem C5_bad_length (st : RawDataState) (pkt : List Nat)
    (pc : List OutputPoint) (h : pkt.length ≠ PACKET_SIZE) :
    unpackCore st.calib st.config pkt = Except.error DecodeError.BadLength ∧
    unpack st pkt pc = pc := by
  have hc : unpackCore st.calib st.config pkt =
      Except.error DecodeError.BadLength := by
    simp [unpackCore, h]
  refine ⟨hc, ?_⟩
  by_cases hr : st.ready <;> simp [unpack, hr, hc]

/-- Witness for C5 at a concrete 1205-byte packet. -/
theorem C5_bad_length_witness :
    unpackCore stI.calib stI.config pkt1205 =
      Except.error DecodeError.BadLength ∧
    unpack stI pkt1205 [] = [] :=
  C5_bad_length stI pkt1205 [] (by decide)

/-- Claim C8: unpack only appends: the prior contents of the output
collection stay in place unchanged, and what is appended does not
depend on them. -/
theorem C8_append_only (st : RawDataState) (pkt : List Nat)
    (pc : List OutputPoint) :
    (unpack st pkt pc).take pc.length = pc ∧
    unpack st pkt pc = pc ++ unpack st pkt [] := by
  by_cases hr : st.ready
  · cases h : unpackCore st.calib st.config pkt with
    | ok v => simp [unpack, hr, h, List.take_left]
    | error e => simp [unpack, hr, h, List.take_length]
  · simp [unpack, hr, List.take_length]

/-- Claim C9: unit conversion: the metric distance fed to the
reconstruction is raw_distance x 0.002 meters, and the azimuth in
radians is raw_azimuth x 0.01 x (pi / 180). -/
theorem C9_unit_conversion :
    (∀ d : Nat, d ≤ 65535 → distance_m d = (d : ℚ) * (2 / 1000)) ∧
    (∀ a : Nat, a ≤ 35999 →
      ((azimuth_deg a : ℚ) : ℝ) * (Real.pi / 180) =
        (a : ℝ) * (1 / 100) * (Real.pi / 180)) := by
  constructor
  · intro d _
    simp [distance_m, DISTANCE_RESOLUTION]
  · intro a _
    push_cast [azimuth_deg, ROTATION_RESOLUTION]
    ring

/-- Witness for C9 at the scenario values: raw distance 5000 gives
10.0 meters, and raw azimuth 35999 converts by the stated formula. -/
theorem C9_unit_conversion_witness :
    distance_m 5000 = (5000 : ℚ) * (2 / 1000) ∧
    ((azimuth_deg 35999 : ℚ) : ℝ) * (Real.pi / 180) =
      (35999 : ℝ) * (1 / 100) * (Real.pi / 180) :=
  ⟨C9_unit_conversion.1 5000 (by decide),
   C9_unit_conversion.2 35999 (by decide)⟩

/-- Claim C2: a block headered with the UPPER sentinel maps its 32
beams to BeamId values in [0,32), one headered with the LOWER
sentinel to [32,64), and a block with any other header value is
skipped and contributes no scans. -/
theorem C2_bank_classification (blk : List Nat) :
    (le16 (blk.getD 0 0) (blk.getD 1 0) = UPPER_BANK →
      (decodeBlock blk).length = 32 ∧
      (decodeBlock blk).all (fun s => decide (s.beamId < 32)) = true) ∧
    (le16 (blk.getD 0 0) (blk.getD 1 0) = LOWER_BANK →
      (decodeBlock blk).length = 32 ∧
      (decodeBlock blk).all
        (fun s => decide (32 ≤ s.beamId ∧ s.beamId < 64)) = true) ∧
    (le16 (blk.getD 0 0) (blk.getD 1 0) ≠ UPPER_BANK →
      le16 (blk.getD 0 0) (blk.getD 1 0) ≠ LOWER_BANK →
      decodeBlock blk = []) := by
  refine ⟨fun h => ?_, fun h => ?_, fun h1 h2 => ?_⟩
  · rw [decodeBlock, if_pos h]
    constructor
    · simp [blockScans, SCANS_PER_BLOCK]
    · rw [List.all_eq_true]
      intro s hs
      simp only [blockScans, List.mem_map, List.mem_range] at hs
      obtain ⟨j, hj, rfl⟩ := hs
      simp only [SCANS_PER_BLOCK] at hj
      show decide (0 + j < 32) = true
      simp only [decide_eq_true_eq]
      omega
  · have hne : le16 (blk.getD 0 0) (blk.getD 1 0) ≠ UPPER_BANK := by
      rw [h]
      decide
    rw [decodeBlock, if_neg hne, if_pos h]
    constructor
    · simp [blockScans, SCANS_PER_BLOCK]
    · rw [List.all_eq_true]
      intro s hs
      simp only [blockScans, List.mem_map, List.mem_range] at hs
      obtain ⟨j, hj, rfl⟩ := hs
      simp only [SCANS_PER_BLOCK] at hj
      show decide (32 ≤ 32 + j ∧ 32 + j < 64) = true
      simp only [decide_eq_true_eq]
      omega
  · rw [decodeBlock, if_neg h1, if_neg h2]

/-- Witness for C2: an upper-bank block, a lower-bank block and a
block with the malformed header 0. -/
theorem C2_bank_classification_witness :
    ((decodeBlock blkU).length = 32 ∧
      (decodeBlock blkU).all (fun s => decide (s.beamId < 32)) = true) ∧
    ((decodeBlock blkL).length = 32 ∧
      (decodeBlock blkL).all
        (fun s => decide (32 ≤ s.beamId ∧ s.beamId < 64)) = true) ∧
    decodeBlock blkBad = [] :=
  ⟨(C2_bank_classification blkU).1 (by decide),
   (C2_bank_classification blkL).2.1 (by decide),
   (C2_bank_classification blkBad).2.2 (by decide) (by decide)⟩

/-- Claim C4: a raw distance of 0 is discarded before filtering and
never yields a point; a packet all of whose decoded scans read
distance 0 appends nothing; and every point unpack appends passed
the range filter on its corrected range, so no discarded scan leaks
a zero-range or garbage point. -/
theorem C4_zero_distance_discard :
    (∀ (calib : Calibration) (config : Config) (b rot i : Nat),
      processScan calib config ⟨b, rot, 0, i⟩ = none) ∧
    (∀ (st : RawDataState) (pkt : List Nat) (pc : List OutputPoint),
      (decodePacket pkt).all (fun s => s.dist == 0) = true →
      unpack st pkt pc = pc) ∧
    (∀ (st : RawDataState) (pkt : List Nat) (pc : List OutputPoint),
      ((unpack st pkt pc).drop pc.length).all
        (fun p => pointInRange st.config p.range) = true) := by
  refine ⟨fun calib config b rot i => ?_, ?_, ?_⟩
  · simp [processScan]
  · intro st pkt pc hall
    by_cases hr : st.ready
    · cases h : unpackCore st.calib st.config pkt with
      | ok v =>
        obtain ⟨stats, pts⟩ := v
        obtain ⟨hpts, -⟩ := unpackCore_ok st.calib st.config pkt stats pts h
        have hnil : pts = [] := by
          rw [hpts, List.filterMap_eq_nil_iff]
          intro s hs
          have hd : s.dist = 0 := by
            have := List.all_eq_true.mp hall s hs
            simpa using this
          simp [processScan, hd]
        simp [unpack, hr, h, hnil]
      | error e => simp [unpack, hr, h]
    · simp [unpack, hr]
  · intro st pkt pc
    by_cases hr : st.ready
    · cases h : unpackCore st.calib st.config pkt with
      | ok v =>
        obtain ⟨stats, pts⟩ := v
        obtain ⟨hpts, -⟩ := unpackCore_ok st.calib st.config pkt stats pts h
        rw [unpack, if_pos hr, h, List.drop_left, List.all_eq_true]
        intro p hp
        rw [hpts] at hp
        obtain ⟨s, -, hs⟩ := List.mem_filterMap.mp hp
        simpa using processScan_inRange st.calib st.config s p hs
      | error e => simp [unpack, hr, h, List.drop_length]
    · simp [unpack, hr, List.drop_length]

/-- Witness for C4: the all-zero-distance packet pktZD decodes to 384
scans of distance 0 and appends nothing. -/
theorem C4_zero_distance_discard_witness :
    (decodePacket pktZD).all (fun s => s.dist == 0) = true ∧
    unpack stI pktZD [] = [] :=
  ⟨by decide, C4_zero_distance_discard.2.1 stI pktZD [] (by decide)⟩

/-- Claim C6 fails on the header as written: rawdata.h line 140
declares `void unpack(...)`, so unpack returns no value at all. At
these two concrete inputs the packet-level outcomes of the decode
pipeline differ (BadLength rejection versus a success that emits no
points), yet the entire observable result of unpack is the same
unchanged cloud, so no Stats/DecodeError result is returned or even
recoverable from what unpack produces. -/
theorem C6_no_result_counterexample :
    unpack stI pkt1205 [] = [] ∧
    unpack stI pktZeroHdr [] = [] ∧
    unpackCore stI.calib stI.config pkt1205 =
      Except.error DecodeError.BadLength ∧
    unpackCore stI.calib stI.config pktZeroHdr = Except.ok (⟨0, 0⟩, []) := by
  refine ⟨?_, ?_, ?_, ?_⟩ <;> with_unfolding_all rfl

/-- Claim C6 amended: unpack returns void; the outcome the spec
assigns to a packet (a DecodeError, or a Stats with the emitted
count) is computable from the packet but is not returned: unpack
appends exactly the points of a successful outcome and appends
nothing on a packet-level failure. -/
theorem C6_append_matches_outcome (st : RawDataState) (pkt : List Nat)
    (pc : List OutputPoint) (hr : st.ready = true) :
    (∀ e, unpackCore st.calib st.config pkt = Except.error e →
      unpack st pkt pc = pc) ∧
    (∀ stats pts, unpackCore st.calib st.config pkt = Except.ok (stats, pts) →
      unpack st pkt pc = pc ++ pts ∧ stats.emitted = pts.length) := by
  constructor
  · intro e he
    simp [unpack, hr, he]
  · intro stats pts h
    refine ⟨by simp [unpack, hr, h], ?_⟩
    exact (unpackCore_ok st.calib st.config pkt stats pts h).2

/-- Witness for C6 amended, at the all-skipped packet pktZeroHdr:
the successful outcome carries zero points and unpack appends
exactly those. -/
theorem C6_append_matches_outcome_witness :
    unpack stI pktZeroHdr [] = [] ++ ([] : List OutputPoint) ∧
    (Stats.mk 0 0).emitted = ([] : List OutputPoint).length :=
  (C6_append_matches_outcome stI pktZeroHdr [] (by decide)).2
    ⟨0, 0⟩ [] (by with_unfolding_all rfl)

/-- Claim C7 fails on the header as written: unpack returns void
(rawdata.h line 140), so a pre-setup call cannot fail with NotReady.
Concretely, the whole observable result of an Uninitialized-state
call on a well-formed packet is the unchanged cloud, identical to
the result of a Ready-state call whose packet decodes successfully
to zero points; no NotReady failure is reported or recoverable. -/
theorem C7_not_ready_counterexample :
    unpack stU pktC1 [] = [] ∧
    unpack stI pktZeroHdr [] = [] ∧
    unpackCore stI.calib stI.config pktZeroHdr = Except.ok (⟨0, 0⟩, []) := by
  refine ⟨?_, ?_, ?_⟩ <;> with_unfolding_all rfl

/-- Claim C7 amended: before a successful setup, unpack performs no
work and appends nothing; after a successful setup every well-formed
packet is accepted and processed through the decode pipeline; but no
NotReady error is returned, unpack being void. -/
theorem C7_state_machine (config : Config) (calib : Calibration)
    (pkt : List Nat) (pc : List OutputPoint) :
    unpack ⟨false, config, calib⟩ pkt pc = pc ∧
    (pkt.length = PACKET_SIZE →
      unpack ⟨true, config, calib⟩ pkt pc =
        pc ++ (decodePacket pkt).filterMap (processScan calib config)) := by
  constructor
  · simp [unpack]
  · intro hlen
    simp [unpack, unpackCore, hlen]

/-- Witness for C7 amended at the all-zero-distance packet. -/
theorem C7_state_machine_witness :
    unpack ⟨false, cfg1, idCalib⟩ pktZD [] = [] ∧
    unpack ⟨true, cfg1, idCalib⟩ pktZD [] =
      [] ++ (decodePacket pktZD).filterMap (processScan idCalib cfg1) :=
  ⟨(C7_state_machine cfg1 idCalib pktZD []).1,
   (C7_state_machine cfg1 idCalib pktZD []).2 (by decide)⟩

/-- Claim C1: end-to-end scenario with the trivial calibration: on
the 1206-byte packet of 12 UPPER blocks, all raw distances 5000
(10.0 m), all intensities 100, range window [1, 50], unpack appends
exactly 384 points (12 x 32), each with intensity 100 and corrected
range inside the window; with the bank header of the block at index
3 malformed, unpack appends exactly 352 points (11 x 32), and the
decoded scans are exactly those of the intact packet with only that
block dropped (the packet decode continues past the bad block). -/
theorem C1_end_to_end :
    (unpack stI pktC1 []).length = 384 ∧
    (unpack stI pktC1 []).all
      (fun p => (p.intensity == 100) && pointInRange cfg1 p.range) = true ∧
    (unpack stI pktC1bad []).length = 352 ∧
    decodePacket pktC1bad =
      (decodePacket pktC1).take 96 ++ (decodePacket pktC1).drop 128 := by
  refine ⟨?_, ?_, ?_, ?_⟩
  · with_unfolding_all rfl
  · with_unfolding_all rfl
  · with_unfolding_all rfl
  · decide

end velodyne_rawdata
